import Mathlib

/-!
Verification of the libsigrokdecode ARM debug decoders (SWD, JTAG/ADIv5 chain,
per-TAP ADIv5 decoder, and the ADIv5 register-model tracker) against their
natural-language specification.  Each Python source function is shallowly
embedded as an executable Lean definition; machine integers are modelled as
`Nat` with explicit masking where the source masks.
-/

namespace JtagAdiv5

/-- Embeds `ADIv5Ack` (src/decoders/jtag_adiv5/adiv5.py, lines 46-53):
an `IntEnum` with `ok = 1`, `wait = 2`, `fault = 4` and no other members. -/
inductive Ack where
  | ok
  | wait
  | fault
deriving DecidableEq, Repr

/-- Embeds the numeric values carried by the `IntEnum` members of `ADIv5Ack`. -/
def Ack.value : Ack → Nat
  | .ok => 1
  | .wait => 2
  | .fault => 4

/-- Embeds `ADIv5RnW` (adiv5.py lines 42-44): `write = 0`, `read = 1`. -/
inductive RnW where
  | write
  | read
deriving DecidableEq, Repr

/-- Embeds `ADIv5RnW(dataIn & 1)`: constructing the IntEnum from the low bit. -/
def rnwOfBit (b : Nat) : RnW :=
  if b = 1 then .read else .write

/-- Embeds `ADIv5APKind` (adiv5.py lines 65-70). -/
inductive APKind where
  | jtag
  | com
  | mem
  | unknown
deriving DecidableEq, Repr

/-- Embeds the `ack` property setter of `ADIv5Transaction`
(adiv5.py lines 87-97): JTAG-DPs respond with 2 for OK, 1 for WAIT, and
everything else is treated as a fault condition. -/
def transactionAck (ack : Nat) : Ack :=
  if ack = 2 then .ok
  else if ack = 1 then .wait
  else .fault

/-- Embeds `ADIv5APIdentReg` (adiv5.py lines 112-132): decoded form of an
AP IDR value. -/
structure APIdentReg where
  kind : APKind
  revision : Nat
  designer : Nat
  variant : Nat
deriving DecidableEq, Repr

/-- Embeds `ADIv5APIdentReg.__init__` (adiv5.py lines 114-132): extracts the
AP class and type fields from the IDR value and classifies the AP kind. -/
def identReg (value : Nat) : APIdentReg :=
  let apClass := (value >>> 13) &&& 0xf
  let apType := value &&& 0xf
  let kind :=
    if apType = 0x0 ∧ apClass = 0x0 then APKind.jtag
    else if apType = 0x0 ∧ apClass = 0x1 then APKind.com
    else if 0x1 ≤ apType ∧ apType ≤ 0x8 ∧ apClass = 0x8 then APKind.mem
    else APKind.unknown
  { kind := kind
    revision := value >>> 28
    designer := (value >>> 17) &&& 0x7ff
    variant := (value >>> 4) &&& 0xf }

/-- Lowercase hex digit, used to embed Python `{n:x}` formatting. -/
def hexDigit (n : Nat) : Char :=
  if n < 10 then Char.ofNat (48 + n) else Char.ofNat (87 + n)

/-- Two lowercase hex digits, embedding Python `{addr:02x}` for `addr ≤ 0xff`
(every AP register address formed as `(bank << 4) | addr` fits in one byte). -/
def hex2 (n : Nat) : String :=
  String.mk [hexDigit (n / 16 % 16), hexDigit (n % 16)]

/-- One decimal digit, used to embed Python `{reg}` for the small banked
register indices. -/
def digitStr (n : Nat) : String :=
  String.mk [Char.ofNat (48 + n % 10)]

/-- Embeds `decodeUnknownAPReg` (adiv5.py lines 137-142): IDR is read-only at
address 0xfc; everything else is an invalid register for an unknown AP. -/
def decodeUnknownAPReg (rnw : RnW) (addr : Nat) : String :=
  if rnw = .read ∧ addr = 0xfc then "IDR"
  else "INVALID (" ++ hex2 addr ++ ")"

/-- Embeds `decodeJTAGAPReg` (adiv5.py lines 144-156). -/
def decodeJTAGAPReg (rnw : RnW) (addr : Nat) : String :=
  if addr = 0x00 then "CSW"
  else if addr = 0x04 then "PSEL"
  else if addr = 0x08 then "PSTA"
  else if 0x10 ≤ addr ∧ addr ≤ 0x1c then
    let reg := (addr >>> 2) &&& 3
    "BRFIFO" ++ digitStr (reg + 1)
  else decodeUnknownAPReg rnw addr

/-- Embeds `decodeMemAPReg` (adiv5.py lines 158-185). -/
def decodeMemAPReg (rnw : RnW) (addr : Nat) : String :=
  if addr = 0x00 then "CSW"
  else if addr = 0x04 then "TAR (low)"
  else if addr = 0x08 then "TAR (high)"
  else if addr = 0x0c then "DRW"
  else if 0x10 < addr ∧ addr < 0x1c then
    let reg := (addr >>> 2) &&& 3
    "BD" ++ digitStr reg
  else if addr = 0x20 then "MBT"
  else if addr = 0x30 then "T0TR"
  else if rnw = .read ∧ addr = 0xe0 then "CFG1"
  else if rnw = .read ∧ addr = 0xf0 then "BASE (high)"
  else if rnw = .read ∧ addr = 0xf4 then "CFG"
  else if rnw = .read ∧ addr = 0xf8 then "BASE (low)"
  else decodeUnknownAPReg rnw addr

/-- Embeds `ADIv5AP` (adiv5.py lines 187-211): the per-AP record held by the
per-TAP decoder, created with `kind = unknown`. -/
structure AP where
  apsel : Nat
  kind : APKind
deriving DecidableEq, Repr

/-- Embeds `ADIv5AP.__init__` (adiv5.py lines 189-191). -/
def AP.mk0 (apsel : Nat) : AP :=
  { apsel := apsel, kind := APKind.unknown }

/-- Embeds the `ADIv5AP.regDecoder` property (adiv5.py lines 193-204). -/
def AP.regDecoder (ap : AP) : RnW → Nat → String :=
  match ap.kind with
  | .jtag => decodeJTAGAPReg
  | .mem => decodeMemAPReg
  | .com => decodeUnknownAPReg
  | .unknown => decodeUnknownAPReg

/-- Embeds `ADIv5AP.handleRegRead` (adiv5.py lines 206-211): on a read of the
IDR (register `(bank << 4) | addr = 0xfc`) the IDR value is decoded and the
AP kind is switched to the decoded kind, unconditionally. -/
def AP.handleRegRead (ap : AP) (addr bank value : Nat) : AP :=
  let reg := (bank <<< 4) ||| addr
  if reg = 0xfc then { ap with kind := (identReg value).kind }
  else ap

/-- Embeds `ADIv5Decoder.decodeDPReg` (adiv5.py lines 337-376).  The nested
early-return chain of the source is flattened into an equivalent
if-then-else chain; `dpVersion` and the current SELECT DP bank are passed
explicitly in place of `self`. -/
def decodeDPReg (dpVersion : Nat) (selDpBank : Nat) (rnw : RnW) (reg : Nat) : String :=
  -- DPv0's only have bank 0 registers, so ignore the bank value on them
  let bank := if dpVersion = 0 then 0 else selDpBank
  -- If it's a write for register 8, regardless of bank, it's SELECT
  if rnw = .write ∧ reg = 8 then "SELECT"
  -- If it's a read for register 12, regardless of bank, it's RDBUFF
  else if rnw = .read ∧ reg = 12 then "RDBUFF"
  -- bank-0-only registers (all versions, plus the DPv0 readable SELECT)
  else if bank = 0 ∧ reg = 4 then "CTRL/STAT"
  else if bank = 0 ∧ dpVersion = 0 ∧ rnw = .read ∧ reg = 8 then "SELECT"
  -- DPv1+ all-banks registers
  else if 1 ≤ dpVersion ∧ rnw = .read ∧ reg = 0 then "DPIDR"
  -- DPv1+ bank-specific registers
  else if 1 ≤ dpVersion ∧ bank = 1 ∧ reg = 4 then "DLCR"
  -- DPv2+ bank-specific registers
  else if 2 ≤ dpVersion ∧ rnw = .read ∧ reg = 4 ∧ bank = 2 then "TARGETID"
  else if 2 ≤ dpVersion ∧ rnw = .read ∧ reg = 4 ∧ bank = 3 then "DLPIDR"
  else if 2 ≤ dpVersion ∧ rnw = .read ∧ reg = 4 ∧ bank = 4 then "EVENTSTAT"
  else "INVALID"

end JtagAdiv5

namespace JtagChain

/-- Embeds `fromBitstring` (src/decoders/jtag_adiv5/pd.py, lines 48-58):
grab the chunk `[b:e)` (logical bit order) out of a big-bit-endian bitstring
and decode it to an integer.  The Python `'0'/'1'` string is modelled as a
`List Bool` in the same (big endian) order; Python's
`int(bits[length - end : length - begin], base = 2)` becomes a drop/take
followed by a most-significant-first fold. -/
def fromBitstring (bits : List Bool) (b e : Nat) : Nat :=
  ((bits.drop (bits.length - e)).take (e - b)).foldl
    (fun acc bit => 2 * acc + (if bit then 1 else 0)) 0

/-- Embeds the single-bit use `fromBitstring(data, offset)` (default
`end = -1`, replaced by `begin + 1` at line 56). -/
def fromBitstring1 (bits : List Bool) (b : Nat) : Nat :=
  fromBitstring bits b (b + 1)

/-- Embeds the attributes of one `JTAGDevice` (pd.py lines 60-76) that the
ID-code topology pass populates: `drPrescan` is the construction index, the
`idcode` the 32-bit chunk, and `drPostscan` is assigned by the second pass of
`handleIDCodes`. -/
structure IDDevice where
  drPrescan : Nat
  idcode : Nat
  drPostscan : Nat
deriving DecidableEq, Repr

/-- Embeds the scan loop of `Decoder.handleIDCodes` (pd.py lines 313-340):
walks up to `remaining` (initially `len(data) // 32`) 32-bit chunks,
creating one `JTAGDevice` per non-all-ones chunk and stopping at the first
`0xffffffff` chunk.  Returns the Python local `devices` (the final device
count) and the accumulated device list. -/
def idCodeLoop (data : List Bool) : Nat → Nat → Nat → List IDDevice → Nat × List IDDevice
  | 0, index, _, acc => (index, acc)
  | remaining + 1, index, offset, acc =>
    let idcode := fromBitstring data offset (offset + 32)
    if idcode = 0xffffffff then (index, acc)
    else idCodeLoop data remaining (index + 1) (offset + 32)
      (acc ++ [{ drPrescan := index, idcode := idcode, drPostscan := 0 }])

/-- Embeds the postscan pass of `handleIDCodes` (pd.py lines 343-344):
`for device in range(devices): devices[device].drPostscan = devices - device - 1`,
as an index-threaded walk over the device list (whose length equals the
final count). -/
def assignPostscan (count : Nat) : List IDDevice → Nat → List IDDevice
  | [], _ => []
  | d :: rest, i => { d with drPostscan := count - i - 1 } :: assignPostscan count rest (i + 1)

/-- Embeds `Decoder.handleIDCodes` (pd.py lines 309-345), restricted to the
model state it builds: the decoder's device list (it is empty on entry in
the awaiting-ID-codes flow, TEST-LOGIC-RESET having cleared it at line 236).
Annotation emission does not affect the built topology and is omitted here. -/
def handleIDCodes (data : List Bool) : List IDDevice :=
  let suspectedDevices := data.length / 32
  let devs := idCodeLoop data suspectedDevices 0 0 []
  assignPostscan devs.1 devs.2 0

/-- Embeds a `JTAGIRQuirks` entry (src/decoders/jtag_adiv5/devices.py,
lines 22-24): a fixed IR length plus the expected bit pattern. -/
structure IRQuirk where
  length : Nat
  value : Nat
deriving DecidableEq, Repr

/-- The one quirk registered in `jtagDevices` (devices.py lines 58-61):
the Xilinx FPGA entry with a 6-bit IR expected to read `0x11`. -/
def xilinxQuirk : IRQuirk := { length := 6, value := 0x11 }

/-- The IR data `determineIRLengths` assigns to one device
(pd.py lines 392-394). -/
structure IRDevice where
  irLength : Nat
  irPrescan : Nat
  irPostscan : Nat
deriving DecidableEq, Repr

/-- Embeds the quirk validation test of `determineIRLengths`: the source's
line 360 reads `((irQuirks['value'] >> irLength) & 1) == nextBit` — it
declares an error exactly when the scanned bit EQUALS the expected pattern
bit; this embedding reproduces that comparison as written. -/
def quirkBitErr (irQuirks : Option IRQuirk) (irLength nextBit : Nat) : Bool :=
  match irQuirks with
  | some q => ((q.value >>> irLength) &&& 1) == nextBit
  | none => false

/-- Embeds the IR-completion test of `determineIRLengths` (pd.py lines
373-374): without quirks a 1 bit past the leading bit completes the IR; with
quirks exactly the quirk's fixed length does. -/
def irComplete (irQuirks : Option IRQuirk) (nextBit irLength : Nat) : Bool :=
  match irQuirks with
  | none => nextBit != 0 && 1 < irLength
  | some q => irLength == q.length

/-- Embeds the per-bit loop of `Decoder.determineIRLengths` (pd.py lines
356-405).  `quirks` lists each chain device's registered IR quirk (``None``
when absent), `configured` accumulates the devices set up so far, and the
fuel argument counts the remaining `offset` values of
`for offset in range(len(data))`.  Returns `none` when the source takes one
of its two `inError` returns (lines 361-363 and 381-383). -/
def irLoop (quirks : List (Option IRQuirk)) (data : List Bool) :
    Nat → Nat → Nat → Nat → Nat → Option IRQuirk → List IRDevice →
    Option (List IRDevice)
  | 0, _, _, _, _, _, configured => some configured
  | fuel + 1, offset, prescan, device, irLength, irQuirks, configured =>
    let nextBit := fromBitstring1 data offset
    -- If we have quirks, validate the bit against the expected IR
    -- (source line 360; the comparison is `==`, as written there)
    if quirkBitErr irQuirks irLength nextBit then
      none
    else
      -- a `Buggy IR[0]` annotation may fire here (line 365-366); it changes
      -- no decoder state, so it is not tracked
      let irLength := irLength + 1
      if irComplete irQuirks nextBit irLength then
        -- two 1-bits in a row without quirks ends the whole scan (line 376-377)
        if irQuirks = none ∧ irLength = 2 then some configured
        -- more IR data than devices is an error (lines 378-383)
        else if device = quirks.length then none
        else
          let overrun := if irQuirks = none then 1 else 0
          let deviceIR := irLength - overrun
          let configured := configured ++
            [{ irLength := deviceIR, irPrescan := prescan, irPostscan := 0 }]
          let prescan := prescan + deviceIR
          let device := device + 1
          let irLength := overrun
          -- grab the quirks for the next device on the chain (lines 402-405)
          let irQuirks := if device < quirks.length then (quirks.get? device).join else none
          irLoop quirks data fuel (offset + 1) prescan device irLength irQuirks configured
      else
        irLoop quirks data fuel (offset + 1) prescan device irLength irQuirks configured

/-- Embeds the reverse postscan pass of `determineIRLengths` (pd.py lines
408-411), accumulating IR postscan totals from the tail of the device list. -/
def irPostscanPass : List IRDevice → Nat × List IRDevice
  | [] => (0, [])
  | d :: rest =>
    let tail := irPostscanPass rest
    (tail.1 + d.irLength, { d with irPostscan := tail.1 } :: tail.2)

/-- Embeds `Decoder.determineIRLengths` (pd.py lines 347-413).  The initial
quirk lookup mirrors `self.devices[0].quirks` (line 354; the Python would
raise `IndexError` on an empty chain, never reached in the discovery flow).
The final pass assigns every device's `irPostscan` (lines 408-411); a device
left unconfigured by the loop would make the Python raise `AttributeError`
there, modelled as `none`. -/
def determineIRLengths (quirks : List (Option IRQuirk)) (data : List Bool) :
    Option (List IRDevice) :=
  match irLoop quirks data data.length 0 0 0 0 (quirks.headD none) [] with
  | none => none
  | some configured =>
    if configured.length = quirks.length then some (irPostscanPass configured).2
    else none

/-- Embeds the first-`None` replacement of `handleDRChange` (pd.py line 440):
`drLengths[drLengths.index(None)] = unknownLength`. -/
def replaceFirstNone (lengths : List (Option Nat)) (value : Nat) : List (Option Nat) :=
  match lengths with
  | [] => []
  | none :: rest => some value :: rest
  | some l :: rest => some l :: replaceFirstNone rest value

/-- Embeds the per-device slicing loop of `handleDRChange` (pd.py lines
442-453): walks the (by now fully known) DR lengths, extracting each TAP's
`(drIn, drOut)` pair at the accumulated offset.  The source's
`assert drLength is not None` (line 446) cannot fire after inference; a
`none` entry here yields the empty remainder. -/
def drSliceLoop (lengths : List (Option Nat)) (offset : Nat)
    (dataIn dataOut : List Bool) : List (Nat × Nat) :=
  match lengths with
  | [] => []
  | none :: _ => []
  | some drLength :: rest =>
    let b := offset
    let e := offset + drLength
    (fromBitstring dataIn b e, fromBitstring dataOut b e) ::
      drSliceLoop rest (offset + drLength) dataIn dataOut

/-- The observable outcome of one `handleDRChange` call: the decoder state it
leaves behind, the note annotations it emits, the `(drIn, drOut)` values it
extracts, and the list of `tapDecoder.decodeData` dispatches it performs. -/
structure DRChangeResult where
  toIdle : Bool
  notes : List String
  slices : List (Nat × Nat)
  dispatched : List (Nat × Nat)
deriving DecidableEq, Repr

/-- Embeds `Decoder.handleDRChange` (pd.py lines 426-455).  `drLengths` is
the list comprehension of line 429 (each device's `drLength`, `None` when
unknown).  With two or more unknowns, the exchange is annotated and the
decoder returns to idle (lines 432-436); with exactly one, the unknown
length is inferred by subtraction (lines 437-440).  The slicing loop then
computes each device's `(drIn, drOut)` pair and annotates it — the extracted
values are never handed to any per-TAP decoder: the loop body (lines
447-453) contains no `decodeData` call, so `dispatched` is always empty. -/
def handleDRChange (drLengths : List (Option Nat)) (dataLength : Nat)
    (dataIn dataOut : List Bool) : DRChangeResult :=
  let drUnknowns := drLengths.count none
  if 1 < drUnknowns then
    { toIdle := true, notes := ["Too many unknown DR lengths"], slices := [], dispatched := [] }
  else
    let lengths :=
      if drUnknowns = 1 then
        let unknownLength := dataLength - (drLengths.map (fun l => l.getD 0)).sum
        replaceFirstNone drLengths unknownLength
      else drLengths
    { toIdle := true, notes := [],
      slices := drSliceLoop lengths 0 dataIn dataOut, dispatched := [] }

end JtagChain

/-- Splits a character list on a separator character (used to embed Python
`str.split`; `String.splitOn` is not kernel-reducible). -/
def splitOnChar (c : Char) : List Char → List (List Char)
  | [] => [[]]
  | x :: rest =>
    let r := splitOnChar c rest
    if x = c then [] :: r
    else
      match r with
      | [] => [[x]]
      | h :: t => (x :: h) :: t

/-- Embeds Python `s.split('_')`. -/
def splitUnderscore (s : String) : List String :=
  (splitOnChar '_' s.data).map (fun cs => String.mk cs)

/-- Character-list prefix test backing `strBeginsWith`. -/
def listBeginsWith : List Char → List Char → Bool
  | [], _ => true
  | _ :: _, [] => false
  | p :: ps, c :: cs => (p = c) && listBeginsWith ps cs

/-- Embeds Python `s.startswith(pat)` (`String.startsWith` is not
kernel-reducible). -/
def strBeginsWith (s pat : String) : Bool := listBeginsWith pat.data s.data

namespace Adiv5Pd

open JtagAdiv5 (APKind)

/-- Embeds `ADIv5Target` (src/decoders/adiv5/pd.py, lines 38-41). -/
inductive Target where
  | ap
  | dp
deriving DecidableEq, Repr

/-- Embeds `ADIv5RnW` (adiv5/pd.py lines 43-46). -/
inductive RW where
  | write
  | read
deriving DecidableEq, Repr

/-- Embeds `ADIv5Ack` (adiv5/pd.py lines 48-53). -/
inductive AckState where
  | ok
  | wait
  | fault
  | noResult
deriving DecidableEq, Repr

/-- Embeds `ADIv5Transaction` (adiv5/pd.py lines 62-80) after construction. -/
structure Transaction where
  target : Target
  rnw : RW
  dp : Nat
  register : Nat × String
  data : Nat
  ack : AckState
deriving DecidableEq, Repr

/-- Embeds `ADIv5Transaction.__init__` (adiv5/pd.py lines 63-80): the opcode
string is split on `_` into target and direction, and the ack literal is
mapped to the enum, raising `ValueError` for anything unrecognised. -/
def mkTransaction (op : String) (dp addr : Nat) (reg : String)
    (ack : String) (data : Nat) : Except String Transaction :=
  match splitUnderscore op with
  | [target, rnw] =>
    let tgt := if target = "AP" then Target.ap else Target.dp
    let rw := if rnw = "READ" then RW.read else RW.write
    let base : Transaction :=
      { target := tgt, rnw := rw, dp := dp, register := (addr, reg),
        data := data, ack := AckState.ok }
    if ack = "OK" then .ok base
    else if ack = "WAIT" then .ok { base with ack := AckState.wait }
    else if ack = "FAULT" then .ok { base with ack := AckState.fault }
    else if ack = "NO-RESPONSE" then .ok { base with ack := AckState.noResult }
    else .error "Invalid ACK value given"
  | _ => .error "ValueError: cannot unpack op"

/-- Embeds `ADIV5MemAP` (adiv5/pd.py lines 150-199): the live register shadow
of a MEM-AP.  The banked-data tuple is kept as four naturals; note the
source's `__init__` line 156 (`self.bd = tuple(0, 0, 0, 0)`) would itself
raise `TypeError`, so this structure models the intended attribute set. -/
structure MemAP where
  idr : JtagAdiv5.APIdentReg
  csw : Nat
  tar : Nat
  drw : Nat
  bd0 : Nat
  bd1 : Nat
  bd2 : Nat
  bd3 : Nat
  mbt : Nat
  t0tr : Nat
  cfg1 : Nat
  cfg : Nat
  base : Nat
deriving DecidableEq, Repr

/-- Embeds `ADIV5MemAP.decodeTransaction` (adiv5/pd.py lines 163-199)
together with the chained fallback to `ADIv5AP.decodeTransaction` (lines
121-126).  The 64-bit TAR and BASE shadows are updated one 32-bit half at a
time with the source's mask-then-or sequence; a `BD` write would hit the
source's tuple item assignment (line 180, a `TypeError` at runtime), and an
unrecognised register raises `ValueError` in the base class. -/
def memAPDecodeTransaction (s : MemAP) (t : Transaction) : Except String MemAP :=
  let (addr, reg) := t.register
  if reg = "CSW" then .ok { s with csw := t.data }
  else if strBeginsWith reg "TAR" then
    -- If it's the low half, discard the low 32 bits and replace them
    if addr = 0x04 then .ok { s with tar := (s.tar &&& 0xffffffff00000000) ||| t.data }
    -- If it's the high half however, discard the upper 32 bits instead
    else .ok { s with tar := (s.tar &&& 0x00000000ffffffff) ||| (t.data <<< 32) }
  else if reg = "DRW" then .ok { s with drw := t.data }
  else if strBeginsWith reg "BD" then .error "TypeError: tuple item assignment"
  else if reg = "MBT" then .ok { s with mbt := t.data }
  else if reg = "T0TR" then .ok { s with t0tr := t.data }
  else if reg = "CFG1" then .ok { s with cfg1 := t.data }
  else if reg = "CFG" then .ok { s with cfg := t.data }
  else if strBeginsWith reg "BASE" then
    -- If it's the low half, discard the low 32 bits and replace them
    if addr = 0xf8 then .ok { s with base := (s.base &&& 0xffffffff00000000) ||| t.data }
    -- If it's the high half however, discard the upper 32 bits instead
    else .ok { s with base := (s.base &&& 0x00000000ffffffff) ||| (t.data <<< 32) }
  else if reg = "IDR" then .ok { s with idr := JtagAdiv5.identReg t.data }
  else .error "Invalid register passed to AP instance"

/-- Embeds `ADIv5DPSelect` (adiv5/pd.py lines 210-217): only the selected AP
index is tracked. -/
structure DPSelect where
  currentAP : Nat
deriving DecidableEq, Repr

/-- Embeds `ADIv5DP` (adiv5/pd.py lines 219-263): the live register shadow of
one Debug Port.  The `ap` mapping stores what `ADIv5AP.fromID` returns — for
every kind other than JTAG-AP that is Python `None` (lines 109-114), and the
JTAG-AP branch would raise in `ADIv5JTAGAP.__init__`; the mapping is kept
abstract as an association list of optional AP kinds. -/
structure DP where
  abort : Nat
  ctrlstat : Nat
  select : DPSelect
  rdbuff : Nat
  dpidr : Nat
  dlcr : Nat
  targetid : Nat
  dlpidr : Nat
  eventstat : Nat
  ap : List (Nat × Option APKind)
deriving DecidableEq, Repr

/-- Embeds `ADIv5DP.__init__` (adiv5/pd.py lines 220-230). -/
def DP.init : DP :=
  { abort := 0, ctrlstat := 0, select := { currentAP := 0 }, rdbuff := 0,
    dpidr := 0, dlcr := 0, targetid := 0, dlpidr := 0, eventstat := 0, ap := [] }

/-- Embeds `ADIv5DP.decodeTransaction` (adiv5/pd.py lines 232-263).  DP
transactions update the named register shadow (an unknown name raises
`ValueError`).  In the AP branch the source compares the `(addr, reg)` tuple
`transaction.register` against the string `'IDR'` (line 261) — a tuple never
equals a string, so when the AP is unknown the method always returns without
creating one, and when the AP is known the method body simply ends; either
way the DP record is unchanged. -/
def DP.decodeTransaction (dp : DP) (t : Transaction) : Except String DP :=
  if t.target = Target.dp then
    let reg := t.register.2
    if reg = "ABORT" then .ok { dp with abort := t.data }
    else if reg = "CTRL/STAT" then .ok { dp with ctrlstat := t.data }
    else if reg = "SELECT" then .ok { dp with select := { currentAP := t.data >>> 24 } }
    else if reg = "RDBUFF" then .ok { dp with rdbuff := t.data }
    else if reg = "DPIDR" then .ok { dp with dpidr := t.data }
    else if reg = "DLCR" then .ok { dp with dlcr := t.data }
    else if reg = "TARGETID" then .ok { dp with targetid := t.data }
    else if reg = "DLPIDR" then .ok { dp with dlpidr := t.data }
    else if reg = "EVENTSTAT" then .ok { dp with eventstat := t.data }
    else .error ("Invalid DP register " ++ reg ++ " given")
  else
    -- `transaction.register != 'IDR'` is always true (tuple vs str), so the
    -- unknown-AP path returns unchanged, and the known-AP path does nothing
    .ok dp

/-- Association-list lookup, embedding Python `dict.get`. -/
def alGet {α : Type} (l : List (Nat × α)) (k : Nat) : Option α :=
  match l with
  | [] => none
  | (k', v) :: rest => if k' = k then some v else alGet rest k

/-- Association-list store, embedding Python `dict[k] = v`. -/
def alSet {α : Type} (l : List (Nat × α)) (k : Nat) (v : α) : List (Nat × α) :=
  match l with
  | [] => [(k, v)]
  | (k', v') :: rest => if k' = k then (k, v) :: rest else (k', v') :: alSet rest k v

/-- The register-model tracker's state (adiv5/pd.py lines 284-289):
a transaction counter and the lazily created DP records keyed by DP index. -/
structure TrackerState where
  transactCount : Nat
  dp : List (Nat × DP)
deriving DecidableEq, Repr

/-- The annotation record one `decode` call emits (adiv5/pd.py lines
303-310), kept structurally: the even/odd line choice plus the displayed
transaction fields. -/
structure TrackerAnn where
  evenLine : Bool
  b : Nat
  e : Nat
  dpIndex : Nat
  isAP : Bool
  rnw : RW
  addr : Nat
  data : Nat
deriving DecidableEq, Repr

/-- Embeds `Decoder.decode` of the register-model tracker (adiv5/pd.py lines
298-320): unpack the transaction, annotate it on the alternating transaction
line, drop it if the ack is not OK, and otherwise locate (or lazily create)
the DP record and fold the transaction into it. -/
def trackerDecode (st : TrackerState) (b e : Nat) (op : String) (dpIdx addr : Nat)
    (reg ack : String) (data : Nat) : Except String (TrackerState × TrackerAnn) :=
  match mkTransaction op dpIdx addr reg ack data with
  | .error msg => .error msg
  | .ok t =>
    let ann : TrackerAnn :=
      { evenLine := st.transactCount &&& 1 = 0, b := b, e := e, dpIndex := t.dp,
        isAP := t.target = Target.ap, rnw := t.rnw, addr := t.register.1,
        data := t.data }
    let st := { st with transactCount := st.transactCount + 1 }
    -- If the transaction failed for some reason, handle that and return
    if t.ack ≠ AckState.ok then .ok (st, ann)
    else
      -- If the DP for this transaction is not yet known, make a new DP instance
      let dp := (alGet st.dp t.dp).getD DP.init
      match dp.decodeTransaction t with
      | .error msg => .error msg
      | .ok dp => .ok ({ st with dp := alSet st.dp t.dp dp }, ann)

end Adiv5Pd

namespace SwdPd

/-- Embeds `DecoderState` (src/decoders/swd/pd.py, lines 45-58), plus one
extra value: `handleUnknown` (line 204) executes `self.state = Decoder.reset`
— it stores the decoder's `reset` *method object*, not `DecoderState.reset` —
and that bound-method value matches no case of the `handleClkEdge` dispatch;
`boundMethodReset` models it. -/
inductive DecoderState where
  | unknown
  | idle
  | reset
  | request
  | ackTurnaround
  | ack
  | dataTurnaround
  | dataRead
  | dataWrite
  | parity
  | selectionAlert
  | activation
  | boundMethodReset
deriving DecidableEq, Repr

/-- The annotation payloads `Decoder` emits (swd/pd.py), kept structurally:
numeric payloads stay numeric, the rendered text variants are external. -/
inductive Ann where
  | idleA
  | resetA
  | enable (msg : String)
  | readA (target : String)
  | writeA (target : String)
  | ackA (name : String)
  | dataA (value : Nat)
  | parityA (verdict : String)
  | errorA (msg : String)
deriving DecidableEq, Repr

/-- One emission of the SWD decoder: an annotation record put on the
annotation output, or a packet put on the registered Python output (the
`OUTPUT_PYTHON` format documented at swd/pd.py lines 26-41: a ptype string
with an (address, ack state, data) payload). -/
inductive SwdOut where
  | ann (b e : Nat) (a : Ann)
  | python (b e : Nat) (ptype : String) (addr : Nat) (ackState : String) (data : Nat)
deriving DecidableEq, Repr

/-- Recognises Python-output packets among a decoder run's emissions. -/
def SwdOut.isPython : SwdOut → Bool
  | .python _ _ _ _ _ _ => true
  | .ann _ _ _ => false

/-- Embeds the mutable fields of `Decoder` set up in `reset`
(swd/pd.py lines 121-130). -/
structure SwdState where
  state : DecoderState
  startSample : Nat
  request : Nat
  ack : Nat
  data : Nat
  computedParity : Nat
  actualParity : Nat
  bits : Nat
deriving DecidableEq, Repr

/-- Embeds `Decoder.reset` (swd/pd.py lines 121-130). -/
def SwdState.init : SwdState :=
  { state := DecoderState.unknown, startSample := 0, request := 0, ack := 0,
    data := 0, computedParity := 0, actualParity := 0, bits := 0 }

/-- Embeds `Decoder.start` (swd/pd.py lines 132-137) with the default
`strict_start = no` option: begin directly in the idle state. -/
def SwdState.initIdle : SwdState :=
  { SwdState.init with state := DecoderState.idle }

/-- Embeds the ack-name lookup of `handleAck` (swd/pd.py lines 260-266):
`{1: OK, 2: WAIT, 4: FAULT, 7: NO-RESPONSE}.get(ack, UNKNOWN)`. -/
def swdAckName (ack : Nat) : String :=
  if ack = 1 then "OK"
  else if ack = 2 then "WAIT"
  else if ack = 4 then "FAULT"
  else if ack = 7 then "NO-RESPONSE"
  else "UNKNOWN"

/-- Embeds `Decoder.processRequest` (swd/pd.py lines 145-166). -/
def processRequest (s : SwdState) (samplenum : Nat) : SwdState × List SwdOut :=
  -- Was this the start of one of the special sequences?
  if s.request = 0xc9 then
    ({ s with
        state := DecoderState.selectionAlert
        request := s.request <<< 120
        bits := s.bits + 1 }, [])
  -- If the stop bit is high, this was actually part of a line reset
  else if s.request &&& (1 <<< 6) ≠ 0 then
    ({ s with state := DecoderState.reset }, [])
  else
    let target := if s.request &&& (1 <<< 1) = 0 then "DP" else "AP"
    if s.request &&& (1 <<< 2) ≠ 0 then
      ({ s with state := DecoderState.ackTurnaround },
        [SwdOut.ann s.startSample samplenum (Ann.readA target)])
    else
      ({ s with state := DecoderState.ackTurnaround },
        [SwdOut.ann s.startSample samplenum (Ann.writeA target)])

/-- Embeds `Decoder.processAck` (swd/pd.py lines 168-197). -/
def processAck (s : SwdState) : SwdState :=
  if s.ack = 1 then
    -- OK: reads head into the data phase, writes have one more turnaround
    if s.request &&& (1 <<< 2) ≠ 0 then
      { s with state := DecoderState.dataRead, data := 0, computedParity := 0, bits := 0 }
    else
      { s with state := DecoderState.dataTurnaround }
  else if s.ack = 2 then { s with state := DecoderState.idle }
  else if s.ack = 4 then { s with state := DecoderState.idle }
  else if s.ack = 7 then { s with state := DecoderState.idle }
  else { s with state := DecoderState.unknown }

/-- Embeds `Decoder.handleUnknown` (swd/pd.py lines 199-204); the assignment
at line 204 stores the `Decoder.reset` method object (see `DecoderState`). -/
def handleUnknown (s : SwdState) (samplenum swclk swdio : Nat) : SwdState × List SwdOut :=
  if swclk = 1 ∧ swdio = 1 then
    ({ s with
        startSample := samplenum
        bits := 1
        state := DecoderState.boundMethodReset }, [])
  else (s, [])

/-- Embeds `Decoder.handleIdle` (swd/pd.py lines 206-213). -/
def handleIdle (s : SwdState) (samplenum swclk swdio : Nat) : SwdState × List SwdOut :=
  if swclk = 1 ∧ swdio = 1 then
    ({ s with
        state := DecoderState.request
        request := 0x80
        bits := 1
        startSample := samplenum },
      [SwdOut.ann s.startSample samplenum Ann.idleA])
  else (s, [])

/-- Embeds `Decoder.handleReset` (swd/pd.py lines 215-228). -/
def handleReset (s : SwdState) (samplenum swclk swdio : Nat) : SwdState × List SwdOut :=
  if swclk = 1 then
    if swdio = 1 then ({ s with bits := s.bits + 1 }, [])
    else if 50 ≤ s.bits then
      ({ s with state := DecoderState.idle, startSample := samplenum },
        [SwdOut.ann s.startSample samplenum Ann.resetA])
    else ({ s with state := DecoderState.unknown }, [])
  else (s, [])

/-- Embeds `Decoder.handleRequest` (swd/pd.py lines 230-238). -/
def handleRequest (s : SwdState) (samplenum swclk swdio : Nat) : SwdState × List SwdOut :=
  if swclk = 1 then
    ({ s with request := (s.request >>> 1) ||| (swdio <<< 7), bits := s.bits + 1 }, [])
  else if s.bits = 8 then processRequest s samplenum
  else (s, [])

/-- Embeds `Decoder.handleAckTurnaround` (swd/pd.py lines 240-246). -/
def handleAckTurnaround (s : SwdState) (samplenum swclk swdio : Nat) :
    SwdState × List SwdOut :=
  if swclk = 0 then
    ({ s with
        bits := 1
        ack := swdio <<< 2
        state := DecoderState.ack
        startSample := samplenum }, [])
  else (s, [])

/-- Embeds `Decoder.handleAck` (swd/pd.py lines 248-272). -/
def handleAck (s : SwdState) (samplenum swclk swdio : Nat) : SwdState × List SwdOut :=
  if swclk = 0 then
    ({ s with ack := (s.ack >>> 1) ||| (swdio <<< 2), bits := s.bits + 1 }, [])
  else if s.bits = 3 then
    let s' := processAck { s with startSample := samplenum }
    (s', [SwdOut.ann s.startSample samplenum (Ann.ackA (swdAckName s.ack))])
  else (s, [])

/-- Embeds `Decoder.handleDataTurnaround` (swd/pd.py lines 274-281). -/
def handleDataTurnaround (s : SwdState) (samplenum swclk swdio : Nat) :
    SwdState × List SwdOut :=
  if swclk = 1 then
    ({ s with
        bits := 0
        data := 0
        computedParity := 0
        state := DecoderState.dataWrite
        startSample := samplenum }, [])
  else (s, [])

/-- Embeds `Decoder.handleDataRead` (swd/pd.py lines 283-300). -/
def handleDataRead (s : SwdState) (samplenum swclk swdio : Nat) : SwdState × List SwdOut :=
  if swclk = 0 then
    if s.bits < 32 then
      ({ s with
          data := (s.data >>> 1) ||| (swdio <<< 31)
          computedParity := s.computedParity ^^^ swdio
          bits := s.bits + 1 }, [])
    else
      ({ s with
          actualParity := swdio
          state := DecoderState.parity
          bits := s.bits + 1 }, [])
  else if s.bits = 32 then
    ({ s with startSample := samplenum },
      [SwdOut.ann s.startSample samplenum (Ann.dataA s.data)])
  else (s, [])

/-- Embeds `Decoder.handleParity` (swd/pd.py lines 302-310). -/
def handleParity (s : SwdState) (samplenum : Nat) : SwdState × List SwdOut :=
  let verdict := if s.computedParity = s.actualParity then "OK" else "ERROR"
  ({ s with state := DecoderState.idle, startSample := samplenum },
    [SwdOut.ann s.startSample samplenum (Ann.parityA verdict)])

/-- Embeds `Decoder.handleSelectionAlert` (swd/pd.py lines 312-332). -/
def handleSelectionAlert (s : SwdState) (samplenum swclk swdio : Nat) :
    SwdState × List SwdOut :=
  if swclk = 1 then
    if s.bits = 128 then
      if s.request = 0x19bc0ea2e3ddafe986852d956209f392 then
        ({ s with
            state := DecoderState.activation
            request := swdio
            bits := 1
            startSample := samplenum },
          [SwdOut.ann s.startSample samplenum (Ann.enable "ALERT SEQUENCE")])
      else
        ({ s with state := DecoderState.unknown },
          [SwdOut.ann s.startSample samplenum (Ann.errorA "INVALID SEQUENCE")])
    else
      ({ s with request := (s.request >>> 1) ||| (swdio <<< 127), bits := s.bits + 1 }, [])
  else (s, [])

/-- Embeds `Decoder.handleActivation` (swd/pd.py lines 334-360). -/
def handleActivation (s : SwdState) (samplenum swclk swdio : Nat) :
    SwdState × List SwdOut :=
  if swclk = 1 then
    if s.bits < 4 then
      if swdio = 1 then
        ({ s with state := DecoderState.unknown },
          [SwdOut.ann s.startSample samplenum (Ann.errorA "INVALID IDLE")])
      else ({ s with bits := s.bits + 1 }, [])
    else if s.request = 0x58 then
      ({ s with state := DecoderState.reset, bits := 0, startSample := samplenum },
        [SwdOut.ann s.startSample samplenum (Ann.enable "ACTIVATE SWD")])
    else if s.request = 0x50 then
      ({ s with state := DecoderState.unknown },
        [SwdOut.ann s.startSample samplenum (Ann.enable "ACTIVATE JTAG")])
    else
      ({ s with request := ((s.request <<< 1) ||| swdio) &&& 0xff }, [])
  else (s, [])

/-- Embeds `Decoder.handleClkEdge` (swd/pd.py lines 362-386).  The source's
`match` has no case for `DecoderState.dataWrite` (and none can match the
bound-method value stored by `handleUnknown`), so edges arriving in those
states fall through with no effect. -/
def handleClkEdge (s : SwdState) (samplenum swclk swdio : Nat) : SwdState × List SwdOut :=
  match s.state with
  | .unknown => handleUnknown s samplenum swclk swdio
  | .idle => handleIdle s samplenum swclk swdio
  | .reset => handleReset s samplenum swclk swdio
  | .request => handleRequest s samplenum swclk swdio
  | .ackTurnaround => handleAckTurnaround s samplenum swclk swdio
  | .ack => handleAck s samplenum swclk swdio
  | .dataTurnaround => handleDataTurnaround s samplenum swclk swdio
  | .dataRead => handleDataRead s samplenum swclk swdio
  | .parity => handleParity s samplenum
  | .selectionAlert => handleSelectionAlert s samplenum swclk swdio
  | .activation => handleActivation s samplenum swclk swdio
  | .dataWrite => (s, [])
  | .boundMethodReset => (s, [])

/-- Embeds the `decode` pull loop (swd/pd.py lines 388-391) over a finite
stream of clock edges, each a `(samplenum, swclk, swdio)` triple. -/
def swdRun (s : SwdState) : List (Nat × Nat × Nat) → SwdState × List SwdOut
  | [] => (s, [])
  | (samplenum, swclk, swdio) :: rest =>
    let step := handleClkEdge s samplenum swclk swdio
    let tail := swdRun step.1 rest
    (tail.1, step.2 ++ tail.2)

/-- Attaches consecutive sample numbers to a list of `(swclk, swdio)` edges. -/
def numberEdges : Nat → List (Nat × Nat) → List (Nat × Nat × Nat)
  | _, [] => []
  | n, (c, d) :: rest => (n, c, d) :: numberEdges (n + 1) rest

/-- The `width` low bits of `value`, least significant first — the order in
which SWD shifts them onto the wire. -/
def lsbBits (value : Nat) : Nat → List Nat
  | 0 => []
  | width + 1 => (value % 2) :: lsbBits (value / 2) width

/-- A rising-then-falling clock edge pair per transmitted bit (request and
activation phases sample on rising edges). -/
def riseFirst (bits : List Nat) : List (Nat × Nat) :=
  bits.flatMap (fun b => [(1, b), (0, b)])

/-- A falling-then-rising clock edge pair per transmitted bit (ack and read
data phases sample on falling edges). -/
def fallFirst (bits : List Nat) : List (Nat × Nat) :=
  bits.flatMap (fun b => [(0, b), (1, b)])

/-- A complete, successful DP read of CTRL/STAT (request byte 0x8d: start,
APnDP=0, RnW=1, A[2:3]=01, parity, stop, park), acknowledged OK, returning
data 0x00000040 with a correct parity bit — the spec's end-to-end example. -/
def dpReadTrace : List (Nat × Nat × Nat) :=
  numberEdges 0 (riseFirst (lsbBits 0x8d 8) ++ fallFirst (lsbBits 1 3) ++
    fallFirst (lsbBits 0x40 32) ++ fallFirst [1])

/-- A DP write request to CTRL/STAT (request byte 0xa9: start, APnDP=0,
RnW=0, A[2:3]=01, parity, stop, park) acknowledged OK, followed by the
write turnaround's rising edge. -/
def dpWriteTrace : List (Nat × Nat × Nat) :=
  numberEdges 0 (riseFirst (lsbBits 0xa9 8) ++ fallFirst (lsbBits 1 3) ++ [(1, 0)])

end SwdPd

/-! ### Concrete fixtures used by the claim theorems and witnesses -/

/-- An AP-targeted OK-acked write transaction aimed at the register-model
tracker, with the register pair and data payload as arguments. -/
def apWriteT (addr : Nat) (reg : String) (d : Nat) : Adiv5Pd.Transaction :=
  { target := Adiv5Pd.Target.ap, rnw := Adiv5Pd.RW.write, dp := 0,
    register := (addr, reg), data := d, ack := Adiv5Pd.AckState.ok }

/-- A concrete MEM-AP shadow with distinctive 64-bit TAR and BASE values. -/
def sampleMemAP : Adiv5Pd.MemAP :=
  { idr := JtagAdiv5.identReg 0x24770011, csw := 0x23000052,
    tar := 0xdeadbeef12345678, drw := 0, bd0 := 0, bd1 := 0, bd2 := 0, bd3 := 0,
    mbt := 0, t0tr := 0, cfg1 := 0, cfg := 0, base := 0xcafef00d87654321 }

/-- A 36-bit all-ones TDI bitstring for a two-device DR exchange. -/
def drIn36 : List Bool := List.replicate 36 true

/-- A 36-bit all-zeroes TDO bitstring for a two-device DR exchange. -/
def drOut36 : List Bool := List.replicate 36 false

/-- IR scan-out bits that match the Xilinx quirk pattern 0x11 exactly:
logical (LSB-first) bit sequence 1,0,0,0,1,0, stored big endian. -/
def quirkMatchBits : List Bool := [false, true, false, false, false, true]

/-- IR scan-out bits that differ from the Xilinx quirk pattern 0x11 in every
position: logical bit sequence 0,1,1,1,0,1, stored big endian. -/
def quirkMismatchBits : List Bool := [true, false, true, true, true, false]

/-- A three-chunk ID-code DR scan: two all-zero ID codes followed by the
all-ones bypass marker (chunks are stored most significant first, so the
terminating all-ones chunk occupies the leftmost 32 bits). -/
def idScanData : List Bool := List.replicate 32 true ++ List.replicate 64 false

/-! ### Claim theorems -/

/-- Claim C8: for a DP of protocol version 0, DP register resolution is
independent of the SELECT register's DP-bank value — resolving with any
`dpBank` yields the same register name as resolving with bank 0, for every
direction and register address. -/
theorem c8_dpv0_bank_independent (bank : Nat) (rnw : JtagAdiv5.RnW) (reg : Nat) :
    JtagAdiv5.decodeDPReg 0 bank rnw reg = JtagAdiv5.decodeDPReg 0 0 rnw reg := rfl

/-- Claim C10: the JTAG per-TAP decoder classifies the 3-bit ack field as OK
exactly for value 2, WAIT exactly for value 1, and FAULT for every other
value; its ack type has no NO-RESPONSE member at all (every classification
is one of OK/WAIT/FAULT), in contrast with the SWD branch's
1→OK, 2→WAIT, 4→FAULT, 7→NO-RESPONSE annotation mapping. -/
theorem c10_jtag_ack_classification (v : Nat) :
    (JtagAdiv5.transactionAck v = JtagAdiv5.Ack.ok ↔ v = 2) ∧
    (JtagAdiv5.transactionAck v = JtagAdiv5.Ack.wait ↔ v = 1) ∧
    (JtagAdiv5.transactionAck v = JtagAdiv5.Ack.fault ↔ ¬(v = 2 ∨ v = 1)) ∧
    (JtagAdiv5.transactionAck v = JtagAdiv5.Ack.ok ∨
      JtagAdiv5.transactionAck v = JtagAdiv5.Ack.wait ∨
      JtagAdiv5.transactionAck v = JtagAdiv5.Ack.fault) ∧
    SwdPd.swdAckName 1 = "OK" ∧ SwdPd.swdAckName 2 = "WAIT" ∧
    SwdPd.swdAckName 4 = "FAULT" ∧ SwdPd.swdAckName 7 = "NO-RESPONSE" := by
  refine ⟨?_, ?_, ?_, ?_, rfl, rfl, rfl, rfl⟩ <;>
    by_cases h2 : v = 2 <;> by_cases h1 : v = 1 <;>
      simp [JtagAdiv5.transactionAck, h1, h2]

/-- Claim C7 counterexample: the AP kind is revised by a second OK-acked IDR
read — after first observing IDR value 0x10001 (a MEM-AP) and then IDR value
0 (a JTAG-AP), the recorded kind has changed, so it is not set exactly once
from the first IDR value observed. -/
theorem c7_kind_revised_by_second_idr_read :
    (JtagAdiv5.AP.handleRegRead (JtagAdiv5.AP.mk0 0) 0xc 0xf 0x10001).kind =
      JtagAdiv5.APKind.mem ∧
    ((JtagAdiv5.AP.handleRegRead (JtagAdiv5.AP.mk0 0) 0xc 0xf 0x10001).handleRegRead
      0xc 0xf 0).kind = JtagAdiv5.APKind.jtag ∧
    ((JtagAdiv5.AP.handleRegRead (JtagAdiv5.AP.mk0 0) 0xc 0xf 0x10001).handleRegRead
      0xc 0xf 0).kind ≠
      (JtagAdiv5.AP.handleRegRead (JtagAdiv5.AP.mk0 0) 0xc 0xf 0x10001).kind := by
  decide

/-- Claim C7 (amended): the AP kind is updated by every OK-acked IDR read —
the kind after an IDR read (register `(0xf << 4) | 0xc = 0xfc`) is exactly
the classification of the IDR value just observed, independent of any
previously recorded kind, and any access whose register is not 0xfc leaves
the AP record unchanged. -/
theorem c7_kind_tracks_latest_idr (ap ap' : JtagAdiv5.AP) (addr bank value : Nat) :
    (JtagAdiv5.AP.handleRegRead ap 0xc 0xf value).kind =
      (JtagAdiv5.identReg value).kind ∧
    (JtagAdiv5.AP.handleRegRead ap 0xc 0xf value).kind =
      (JtagAdiv5.AP.handleRegRead ap' 0xc 0xf value).kind ∧
    ((bank <<< 4) ||| addr = 0xfc ∨
      JtagAdiv5.AP.handleRegRead ap addr bank value = ap) := by
  refine ⟨rfl, rfl, ?_⟩
  by_cases h : (bank <<< 4) ||| addr = 0xfc
  · exact Or.inl h
  · exact Or.inr (by simp [JtagAdiv5.AP.handleRegRead, h])

/-- Claim C2: a transaction whose acknowledgement is not OK leaves the
register-model tracker's model state untouched — the decode call succeeds,
every DP record (and with it every AP record and register shadow field) is
exactly what it was before, and only the display-side transaction counter
advances. -/
theorem c2_non_ok_preserves_model (st : Adiv5Pd.TrackerState) (b e : Nat)
    (op : String) (dpIdx addr : Nat) (reg : String) (ack : String) (data : Nat)
    (hop : op = "DP_READ" ∨ op = "DP_WRITE" ∨ op = "AP_READ" ∨ op = "AP_WRITE")
    (hack : ack = "WAIT" ∨ ack = "FAULT" ∨ ack = "NO-RESPONSE") :
    ∃ st' ann, Adiv5Pd.trackerDecode st b e op dpIdx addr reg ack data =
        Except.ok (st', ann) ∧
      st'.dp = st.dp ∧ st'.transactCount = st.transactCount + 1 := by
  rcases hop with h | h | h | h <;> subst h <;>
    rcases hack with h | h | h <;> subst h <;>
      exact ⟨_, _, rfl, rfl, rfl⟩

/-- Claim C2 witness: a FAULT-acked AP write against a tracker that already
holds one DP record leaves the DP map untouched. -/
theorem c2_non_ok_preserves_model_witness :
    ∃ st' ann,
      Adiv5Pd.trackerDecode ⟨5, [(0, Adiv5Pd.DP.init)]⟩ 10 20 "AP_WRITE" 0 4 "CSW"
          "FAULT" 99 = Except.ok (st', ann) ∧
      st'.dp = (⟨5, [(0, Adiv5Pd.DP.init)]⟩ : Adiv5Pd.TrackerState).dp ∧
      st'.transactCount =
        (⟨5, [(0, Adiv5Pd.DP.init)]⟩ : Adiv5Pd.TrackerState).transactCount + 1 :=
  c2_non_ok_preserves_model ⟨5, [(0, Adiv5Pd.DP.init)]⟩ 10 20 "AP_WRITE" 0 4 "CSW"
    "FAULT" 99 (Or.inr (Or.inr (Or.inr rfl))) (Or.inr (Or.inl rfl))

/-- For a 64-bit value, masking with `0xffffffff00000000` clears the low
half and keeps the high half in place. -/
theorem and_high64_mask (t : Nat) (ht : t < 2 ^ 64) :
    t &&& 0xffffffff00000000 = 2 ^ 32 * (t / 2 ^ 32) := by
  have hm : (0xffffffff00000000 : Nat) = (2 ^ 32 - 1) <<< 32 := by
    rw [Nat.shiftLeft_eq]; norm_num
  have hdiv : 2 ^ 32 * (t / 2 ^ 32) = (t >>> 32) <<< 32 := by
    rw [Nat.shiftRight_eq_div_pow, Nat.shiftLeft_eq]; ring
  rw [hm, hdiv]
  apply Nat.eq_of_testBit_eq
  intro i
  simp only [Nat.testBit_and, Nat.testBit_shiftLeft, Nat.testBit_shiftRight,
    Nat.testBit_two_pow_sub_one]
  by_cases h32 : 32 ≤ i
  · have hi : 32 + (i - 32) = i := by omega
    rw [hi]
    by_cases h64 : i < 64
    · simp [ge_iff_le, h32, show i - 32 < 32 by omega]
    · have hbit : t.testBit i = false :=
        Nat.testBit_lt_two_pow
          (lt_of_lt_of_le ht (Nat.pow_le_pow_right (by norm_num) (by omega)))
      simp [hbit]
  · simp [ge_iff_le, h32]

/-- Masking with `0xffffffff` keeps exactly the low 32 bits. -/
theorem and_low32_mask (t : Nat) : t &&& 0xffffffff = t % 2 ^ 32 := by
  have hm : (0xffffffff : Nat) = 2 ^ 32 - 1 := by norm_num
  rw [hm, Nat.and_pow_two_sub_one_eq_mod]

/-- The source's low-half update `(t & 0xffffffff00000000) | d` is the
arithmetic replacement of the low 32 bits by `d`. -/
theorem low_half_update (t d : Nat) (ht : t < 2 ^ 64) (hd : d < 2 ^ 32) :
    (t &&& 0xffffffff00000000) ||| d = 2 ^ 32 * (t / 2 ^ 32) + d := by
  rw [and_high64_mask t ht, ← Nat.mul_add_lt_is_or hd]

/-- The source's high-half update `(t & 0xffffffff) | (d << 32)` is the
arithmetic replacement of the high bits by `d`. -/
theorem high_half_update (t d : Nat) :
    (t &&& 0xffffffff) ||| (d <<< 32) = 2 ^ 32 * d + t % 2 ^ 32 := by
  rw [and_low32_mask, Nat.shiftLeft_eq, Nat.or_comm, mul_comm d (2 ^ 32),
    ← Nat.mul_add_lt_is_or (Nat.mod_lt _ (by norm_num)) d]

/-- Claim C9: a MEM-AP model update that writes one 32-bit half of the
64-bit TAR or BASE register changes only the addressed half — the other 32
bits of that register are bit-exact before and after, and (by the `{s with}`
form of the result) no other AP field is modified. -/
theorem c9_memap_half_write_frame (s : Adiv5Pd.MemAP) (d : Nat)
    (hd : d < 2 ^ 32) (htar : s.tar < 2 ^ 64) (hbase : s.base < 2 ^ 64) :
    (∃ t', Adiv5Pd.memAPDecodeTransaction s (apWriteT 0x04 "TAR (low)" d) =
        Except.ok { s with tar := t' } ∧
      t' / 2 ^ 32 = s.tar / 2 ^ 32 ∧ t' % 2 ^ 32 = d) ∧
    (∃ t', Adiv5Pd.memAPDecodeTransaction s (apWriteT 0x08 "TAR (high)" d) =
        Except.ok { s with tar := t' } ∧
      t' % 2 ^ 32 = s.tar % 2 ^ 32 ∧ t' / 2 ^ 32 = d) ∧
    (∃ b', Adiv5Pd.memAPDecodeTransaction s (apWriteT 0xf8 "BASE (low)" d) =
        Except.ok { s with base := b' } ∧
      b' / 2 ^ 32 = s.base / 2 ^ 32 ∧ b' % 2 ^ 32 = d) ∧
    (∃ b', Adiv5Pd.memAPDecodeTransaction s (apWriteT 0xf0 "BASE (high)" d) =
        Except.ok { s with base := b' } ∧
      b' % 2 ^ 32 = s.base % 2 ^ 32 ∧ b' / 2 ^ 32 = d) := by
  have h32 : (2 : Nat) ^ 32 = 4294967296 := by norm_num
  refine ⟨⟨_, rfl, ?_, ?_⟩, ⟨_, rfl, ?_, ?_⟩, ⟨_, rfl, ?_, ?_⟩, ⟨_, rfl, ?_, ?_⟩⟩ <;>
    simp only [apWriteT]
  · rw [low_half_update s.tar d htar hd]; omega
  · rw [low_half_update s.tar d htar hd]; omega
  · rw [high_half_update s.tar d]; omega
  · rw [high_half_update s.tar d]; omega
  · rw [low_half_update s.base d hbase hd]; omega
  · rw [low_half_update s.base d hbase hd]; omega
  · rw [high_half_update s.base d]; omega
  · rw [high_half_update s.base d]; omega

/-- Claim C9 witness: the four half-writes applied to a concrete MEM-AP
shadow with distinctive TAR and BASE contents and data 0x12345678. -/
theorem c9_memap_half_write_frame_witness :
    (∃ t', Adiv5Pd.memAPDecodeTransaction sampleMemAP
        (apWriteT 0x04 "TAR (low)" 0x12345678) =
        Except.ok { sampleMemAP with tar := t' } ∧
      t' / 2 ^ 32 = sampleMemAP.tar / 2 ^ 32 ∧ t' % 2 ^ 32 = 0x12345678) ∧
    (∃ t', Adiv5Pd.memAPDecodeTransaction sampleMemAP
        (apWriteT 0x08 "TAR (high)" 0x12345678) =
        Except.ok { sampleMemAP with tar := t' } ∧
      t' % 2 ^ 32 = sampleMemAP.tar % 2 ^ 32 ∧ t' / 2 ^ 32 = 0x12345678) ∧
    (∃ b', Adiv5Pd.memAPDecodeTransaction sampleMemAP
        (apWriteT 0xf8 "BASE (low)" 0x12345678) =
        Except.ok { sampleMemAP with base := b' } ∧
      b' / 2 ^ 32 = sampleMemAP.base / 2 ^ 32 ∧ b' % 2 ^ 32 = 0x12345678) ∧
    (∃ b', Adiv5Pd.memAPDecodeTransaction sampleMemAP
        (apWriteT 0xf0 "BASE (high)" 0x12345678) =
        Except.ok { sampleMemAP with base := b' } ∧
      b' % 2 ^ 32 = sampleMemAP.base % 2 ^ 32 ∧ b' / 2 ^ 32 = 0x12345678) :=
  c9_memap_half_write_frame sampleMemAP 0x12345678 (by decide)
    (by decide) (by decide)

/-- Claim C4 (code evaluation): the steady-state DR exchange handler never
forwards anything to a per-TAP decoder.  In general its dispatch list is
empty, and on a concrete two-device exchange (DR lengths 35 and 1, total 36
bits) it computes both devices' `(drIn, drOut)` slices — inferring a single
unknown length by subtraction — yet dispatches none of them; two unknown
lengths produce only the indeterminate note. -/
theorem c4_dr_slices_never_dispatched :
    (∀ (drLengths : List (Option Nat)) (dataLength : Nat) (dataIn dataOut : List Bool),
      (JtagChain.handleDRChange drLengths dataLength dataIn dataOut).dispatched = []) ∧
    JtagChain.handleDRChange [some 35, some 1] 36 drIn36 drOut36 =
      { toIdle := true, notes := [], slices := [(0x7ffffffff, 0), (1, 0)],
        dispatched := [] } ∧
    JtagChain.handleDRChange [some 35, none] 36 drIn36 drOut36 =
      { toIdle := true, notes := [], slices := [(0x7ffffffff, 0), (1, 0)],
        dispatched := [] } ∧
    JtagChain.handleDRChange [none, none] 36 drIn36 drOut36 =
      { toIdle := true, notes := ["Too many unknown DR lengths"], slices := [],
        dispatched := [] } := by
  refine ⟨fun drLengths dataLength dataIn dataOut => ?_, by decide, by decide, by decide⟩
  unfold JtagChain.handleDRChange
  by_cases h : 1 < List.count none drLengths <;> simp [h]

/-- Claim C5 (code evaluation): for a single Xilinx-quirked TAP (6-bit IR,
expected pattern 0x11), an IR scan-out that matches the expected pattern
bit-for-bit is rejected as a hard decode error, while the scan-out that
differs from the pattern in every bit position is accepted and consumes
exactly the quirk's fixed 6-bit length — the source's validation at
jtag_adiv5/pd.py line 360 compares with `==` where the intent is `!=`. -/
theorem c5_quirk_validation_inverted :
    JtagChain.determineIRLengths [some JtagChain.xilinxQuirk] quirkMatchBits = none ∧
    JtagChain.determineIRLengths [some JtagChain.xilinxQuirk] quirkMismatchBits =
      some [{ irLength := 6, irPrescan := 0, irPostscan := 0 }] := by
  constructor <;> decide

/-- Loop invariant of the ID-code scan: once the chunks before `N` are all
non-all-ones and chunk `N` is the all-ones bypass marker, running the loop
from position `j ≤ N` (with enough chunk budget left) stops exactly at `N`,
appending one device per chunk in chain order. -/
theorem idCodeLoop_spec (data : List Bool) (N : Nat)
    (hdev : ∀ i, i < N →
      JtagChain.fromBitstring data (32 * i) (32 * i + 32) ≠ 0xffffffff)
    (hend : JtagChain.fromBitstring data (32 * N) (32 * N + 32) = 0xffffffff) :
    ∀ (r j : Nat) (acc : List JtagChain.IDDevice), j ≤ N → N < j + r →
      JtagChain.idCodeLoop data r j (32 * j) acc =
        (N, acc ++ (List.range' j (N - j)).map
          (fun i =>
            { drPrescan := i,
              idcode := JtagChain.fromBitstring data (32 * i) (32 * i + 32),
              drPostscan := 0 })) := by
  intro r
  induction r with
  | zero => intro j acc hj hr; omega
  | succ r ih =>
    intro j acc hj hr
    by_cases hjN : j = N
    · subst hjN
      simp only [JtagChain.idCodeLoop, hend, if_pos]
      simp
    · have hjlt : j < N := lt_of_le_of_ne hj hjN
      have hne := hdev j hjlt
      simp only [JtagChain.idCodeLoop]
      rw [if_neg hne]
      have h32 : 32 * j + 32 = 32 * (j + 1) := by ring
      rw [h32, ih (j + 1) _ (by omega) (by omega)]
      have hNj : N - j = (N - (j + 1)) + 1 := by omega
      rw [hNj, List.range'_succ]
      simp only [List.map_cons, List.append_assoc, List.singleton_append]
      rw [h32]

/-- The postscan pass over a chain-ordered device list rewrites each
device's `drPostscan` to `count - index - 1`. -/
theorem assignPostscan_map (c : Nat) (f : Nat → Nat) :
    ∀ (n j : Nat),
      JtagChain.assignPostscan c
        ((List.range' j n).map
          (fun i => { drPrescan := i, idcode := f i, drPostscan := 0 })) j =
      (List.range' j n).map
        (fun i => { drPrescan := i, idcode := f i, drPostscan := c - i - 1 }) := by
  intro n
  induction n with
  | zero => intro j; rfl
  | succ n ih =>
    intro j
    rw [List.range'_succ]
    simp only [List.map_cons, JtagChain.assignPostscan, ih (j + 1)]

/-- Claim C6: an ID-code DR scan with `N` non-all-ones 32-bit chunks
followed by an all-ones chunk creates exactly `N` device records, in chain
order with each chunk as that device's ID code, and every record satisfies
`drPrescan + drPostscan + 1 = N`. -/
theorem c6_idcode_topology (data : List Bool) (N : Nat)
    (hlen : 32 * (N + 1) ≤ data.length)
    (hdev : ∀ i, i < N →
      JtagChain.fromBitstring data (32 * i) (32 * i + 32) ≠ 0xffffffff)
    (hend : JtagChain.fromBitstring data (32 * N) (32 * N + 32) = 0xffffffff) :
    (JtagChain.handleIDCodes data).length = N ∧
    JtagChain.handleIDCodes data =
      (List.range' 0 N).map
        (fun i =>
          { drPrescan := i,
            idcode := JtagChain.fromBitstring data (32 * i) (32 * i + 32),
            drPostscan := N - i - 1 }) ∧
    ∀ d ∈ JtagChain.handleIDCodes data, d.drPrescan + d.drPostscan + 1 = N := by
  have hsusp : N < data.length / 32 := by
    have h := (Nat.le_div_iff_mul_le (x := N + 1) (y := data.length)
      (by norm_num : 0 < 32)).mpr (by omega)
    omega
  have hloop := idCodeLoop_spec data N hdev hend (data.length / 32) 0 []
    (Nat.zero_le _) (by omega)
  rw [Nat.mul_zero] at hloop
  have hchar : JtagChain.handleIDCodes data =
      (List.range' 0 N).map
        (fun i =>
          { drPrescan := i,
            idcode := JtagChain.fromBitstring data (32 * i) (32 * i + 32),
            drPostscan := N - i - 1 }) := by
    simp only [JtagChain.handleIDCodes, hloop, List.nil_append, Nat.sub_zero]
    exact assignPostscan_map N
      (fun i => JtagChain.fromBitstring data (32 * i) (32 * i + 32)) N 0
  refine ⟨?_, hchar, ?_⟩
  · rw [hchar]; simp
  · intro d hd
    rw [hchar] at hd
    simp only [List.mem_map] at hd
    obtain ⟨i, hi, rfl⟩ := hd
    have hiN : i < N := by
      have := List.mem_range'_1.mp hi
      omega
    simp only []
    omega

/-- Claim C6 witness: a 96-bit scan holding two all-zero ID codes and then
the all-ones bypass marker discovers exactly two devices with
`drPrescan + drPostscan + 1 = 2`. -/
theorem c6_idcode_topology_witness :
    (JtagChain.handleIDCodes idScanData).length = 2 ∧
    JtagChain.handleIDCodes idScanData =
      (List.range' 0 2).map
        (fun i =>
          { drPrescan := i,
            idcode := JtagChain.fromBitstring idScanData (32 * i) (32 * i + 32),
            drPostscan := 2 - i - 1 }) ∧
    ∀ d ∈ JtagChain.handleIDCodes idScanData,
      d.drPrescan + d.drPostscan + 1 = 2 :=
  c6_idcode_topology idScanData 2 (by decide) (by decide) (by decide)

/-- No single clock-edge step of the SWD decoder ever puts anything on the
registered Python output: every handler emits only annotation records. -/
theorem handleClkEdge_no_python (s : SwdPd.SwdState) (n c d : Nat) :
    ((SwdPd.handleClkEdge s n c d).2.filter SwdPd.SwdOut.isPython) = [] := by
  cases hs : s.state <;>
    simp only [SwdPd.handleClkEdge, hs, SwdPd.handleUnknown, SwdPd.handleIdle,
      SwdPd.handleReset, SwdPd.handleRequest, SwdPd.processRequest,
      SwdPd.handleAckTurnaround, SwdPd.handleAck, SwdPd.processAck,
      SwdPd.handleDataTurnaround, SwdPd.handleDataRead, SwdPd.handleParity,
      SwdPd.handleSelectionAlert, SwdPd.handleActivation] <;>
    (try split_ifs) <;> simp [SwdPd.SwdOut.isPython]

/-- Over any edge stream, the SWD decoder's accumulated output contains no
Python-output packet. -/
theorem swdRun_no_python (s : SwdPd.SwdState) (edges : List (Nat × Nat × Nat)) :
    ((SwdPd.swdRun s edges).2.filter SwdPd.SwdOut.isPython) = [] := by
  induction edges generalizing s with
  | nil => rfl
  | cons e rest ih =>
    obtain ⟨n, c, d⟩ := e
    simp only [SwdPd.swdRun, List.filter_append, handleClkEdge_no_python, ih,
      List.append_nil]

/-- An edge arriving while the decoder state is `dataWrite` matches no case
of the `handleClkEdge` dispatch and is silently dropped. -/
theorem handleClkEdge_dataWrite_stuck (s : SwdPd.SwdState)
    (hs : s.state = SwdPd.DecoderState.dataWrite) (n c d : Nat) :
    SwdPd.handleClkEdge s n c d = (s, []) := by
  simp [SwdPd.handleClkEdge, hs]

/-- A decoder sitting in `dataWrite` stays there for ever, emitting nothing,
whatever else arrives on the wire. -/
theorem swdRun_dataWrite_stuck (s : SwdPd.SwdState)
    (hs : s.state = SwdPd.DecoderState.dataWrite)
    (edges : List (Nat × Nat × Nat)) :
    SwdPd.swdRun s edges = (s, []) := by
  induction edges with
  | nil => rfl
  | cons e rest ih =>
    obtain ⟨n, c, d⟩ := e
    simp only [SwdPd.swdRun, handleClkEdge_dataWrite_stuck s hs, ih,
      List.append_nil]

set_option maxRecDepth 16384 in
/-- Claim C1 (code evaluation): the SWD decoder never yields a structured
transaction on its Python output — no step can emit one — and in particular
the complete, successful DP read of CTRL/STAT (OK ack, data 0x00000040,
parity OK) produces exactly its per-phase annotations and nothing else,
even though `start` registers the Python output the emission should use. -/
theorem c1_swd_no_python_transaction :
    (∀ (s : SwdPd.SwdState) (edges : List (Nat × Nat × Nat)),
      ((SwdPd.swdRun s edges).2.filter SwdPd.SwdOut.isPython) = []) ∧
    (SwdPd.swdRun SwdPd.SwdState.initIdle SwdPd.dpReadTrace).1.state =
      SwdPd.DecoderState.idle ∧
    (SwdPd.swdRun SwdPd.SwdState.initIdle SwdPd.dpReadTrace).2 =
      [SwdPd.SwdOut.ann 0 0 SwdPd.Ann.idleA,
       SwdPd.SwdOut.ann 0 15 (SwdPd.Ann.readA "DP"),
       SwdPd.SwdOut.ann 16 21 (SwdPd.Ann.ackA "OK"),
       SwdPd.SwdOut.ann 21 85 (SwdPd.Ann.dataA 0x40),
       SwdPd.SwdOut.ann 85 87 (SwdPd.Ann.parityA "OK")] :=
  ⟨swdRun_no_python, by decide, by decide⟩

set_option maxRecDepth 16384 in
/-- Claim C3 (code evaluation): a DP write acknowledged OK drives the
decoder through the data turnaround into the `dataWrite` state, where it is
stuck for ever — no data or parity bit is ever sampled and the decoder
never returns to idle, because `handleClkEdge` has no `dataWrite` case. -/
theorem c3_swd_write_data_phase_stuck :
    (SwdPd.swdRun SwdPd.SwdState.initIdle SwdPd.dpWriteTrace).1.state =
      SwdPd.DecoderState.dataWrite ∧
    ∀ (extra : List (Nat × Nat × Nat)),
      (SwdPd.swdRun (SwdPd.swdRun SwdPd.SwdState.initIdle
        SwdPd.dpWriteTrace).1 extra).1.state = SwdPd.DecoderState.dataWrite ∧
      (SwdPd.swdRun (SwdPd.swdRun SwdPd.SwdState.initIdle
        SwdPd.dpWriteTrace).1 extra).2 = [] := by
  have hstate : (SwdPd.swdRun SwdPd.SwdState.initIdle SwdPd.dpWriteTrace).1.state =
      SwdPd.DecoderState.dataWrite := by decide
  refine ⟨hstate, fun extra => ?_⟩
  rw [swdRun_dataWrite_stuck _ hstate extra]
  exact ⟨hstate, rfl⟩
